import Mathlib

/-!
Verification of the QC-chart generation logic of `src/visualization.py`
(functions `generate_QC_graph` and `generate_westguard_graph`).

Shallow embedding notes:
* Numeric values (QC results, patient results, mean, sd, reference bounds)
  are modelled as rationals; timestamps as integers with their order.
* The pandas call `df.groupby('qc_timestamp')` (its default `sort=True`)
  is modelled by `pandasGroupby`: distinct keys sorted ascending, each key
  paired with its rows in original order.
* The matplotlib figure is modelled by `FigState`: the y-data fed to the
  axes (`axhline`, `boxplot`, `plot`, `scatter`, `axhspan` all contribute
  their y-values) plus an optional manual y-limit override set by
  `plt.ylim(lo, hi)`.  Autoscaled limits are the data range expanded by
  the default 5% margin on each side (`autoYlim`).
* The functions are wrapped in `Except VizError` so that "fails with
  InvalidParameter" is statable.  `generate_QC_graph` raises nothing on
  any input; `generate_westguard_graph` itself raises nothing, but the
  `plt.boxplot(data, positions=...)` call at line 122 raises the
  library's ValueError when the data list is empty: matplotlib reshapes
  an empty list into a single empty dataset while the positions list has
  length zero, and `bxp` rejects the length mismatch.  That is the one
  reachable error path and it is modelled by `boxplotOk`.
-/

/-- Severity of a QC run as the spec's `RunClassifier` names it. -/
inductive Severity where
  | Pass : Severity
  | Warning : Severity
  | Failure : Severity
deriving DecidableEq, Repr

/-- Error kinds: `InvalidParameter` is what the spec says the components
fail with; `ValueError` is the plotting library's own error. -/
inductive VizError where
  | InvalidParameter : VizError
  | ValueError : VizError
deriving DecidableEq, Repr

/-- One input row of `generate_westguard_graph`'s DataFrame:
columns `qc_timestamp`, `qc_value`, `patient_result`. -/
structure Row where
  qc_timestamp : Int
  qc_value : ℚ
  patient_result : ℚ
deriving DecidableEq, Repr

/-- The color expression of lines 33 and 127:
`'#FF0000' if fail else '#FFA500' if warn else "C0"`. -/
def colorOf (fail warn : Bool) : String :=
  if fail then "#FF0000" else if warn then "#FFA500" else "C0"

/-- Lines 31-35 (and identically 126-129): when both flag sequences are
given, zip `failures` with `warnings` and color each pair; otherwise color
every one of the `n` runs with the default "C0".  Python's `zip` truncates
to the shorter sequence. -/
def computeColors (n : Nat) (warnings failures : Option (List Bool)) : List String :=
  match warnings, failures with
  | some ws, some fs => (fs.zip ws).map (fun p => colorOf p.1 p.2)
  | _, _ => List.replicate n "C0"

/-- Reading a marker color back as the severity it encodes
(red = Failure, amber = Warning, default = Pass). -/
def severityOfColor (c : String) : Severity :=
  if c = "#FF0000" then Severity.Failure
  else if c = "#FFA500" then Severity.Warning
  else Severity.Pass

/-- The severity sequence the colors of `computeColors` encode. -/
def runSeverities (n : Nat) (warnings failures : Option (List Bool)) : List Severity :=
  (computeColors n warnings failures).map severityOfColor

/-- The y-values of the seven `plt.axhline` calls (lines 40-46 and
111-117), in source order: mean, ±1 sd, ±2 sd, ±3 sd. -/
def controlLineYs (mean sd : ℚ) : List ℚ :=
  [mean, mean + sd, mean - sd, mean + 2*sd, mean - 2*sd, mean + 3*sd, mean - 3*sd]

/-- `df.groupby('qc_timestamp')` at line 98: pandas' default `sort=True`
emits groups in ascending key order; within a group the rows keep their
original order. -/
def pandasGroupby (rows : List Row) : List (Int × List Row) :=
  (((rows.map Row.qc_timestamp).dedup).insertionSort (· ≤ ·)).map
    (fun t => (t, rows.filter (fun r => r.qc_timestamp == t)))

/-- `group['qc_value'].iloc[0]` at line 101: the first row of the group
(a group coming from `groupby` is never empty, so the `[]` default is
never consulted). -/
def ilocQCValue (g : List Row) : ℚ :=
  match g with
  | [] => 0
  | r :: _ => r.qc_value

/-- Line 101: one qc_value per group. -/
def qc_values_list (rows : List Row) : List ℚ :=
  (pandasGroupby rows).map (fun g => ilocQCValue g.2)

/-- Line 102: the patient results of each group, in row order. -/
def patient_results_list (rows : List Row) : List (List ℚ) :=
  (pandasGroupby rows).map (fun g => g.2.map Row.patient_result)

/-- Minimum of a list of rationals (0 on the empty list, never relied on). -/
def listMin : List ℚ → ℚ
  | [] => 0
  | x :: xs => xs.foldl min x

/-- Maximum of a list of rationals (0 on the empty list, never relied on). -/
def listMax : List ℚ → ℚ
  | [] => 0
  | x :: xs => xs.foldl max x

/-- Matplotlib's autoscaled y-limits: the data range expanded by the
default 5% axes margin on each side. -/
def autoYlim (ys : List ℚ) : ℚ × ℚ :=
  (listMin ys - (listMax ys - listMin ys) * (1/20),
   listMax ys + (listMax ys - listMin ys) * (1/20))

/-- The ambient matplotlib figure: accumulated y-data of everything drawn,
plus an optional manual y-limit set by `plt.ylim(lo, hi)`. -/
structure FigState where
  dataYs : List ℚ := []
  manualYlim : Option (ℚ × ℚ) := none
deriving Repr

/-- Feed y-values to the axes (they participate in autoscaling). -/
def FigState.addYs (st : FigState) (ys : List ℚ) : FigState :=
  { st with dataYs := st.dataYs ++ ys }

/-- `plt.axhline(y=...)`: the line's y participates in y-autoscaling. -/
def FigState.axhline (st : FigState) (y : ℚ) : FigState :=
  st.addYs [y]

/-- `plt.axhspan(y1, y2, ...)`: both edges participate in y-autoscaling. -/
def FigState.axhspan (st : FigState) (y1 y2 : ℚ) : FigState :=
  st.addYs [y1, y2]

/-- `plt.boxplot(data, ...)` with `showfliers=True`: every sample value
participates in y-autoscaling. -/
def FigState.boxplot (st : FigState) (groups : List (List ℚ)) : FigState :=
  st.addYs groups.flatten

/-- `plt.plot(positions, ys, ...)`. -/
def FigState.plotLine (st : FigState) (ys : List ℚ) : FigState :=
  st.addYs ys

/-- `plt.scatter(positions, ys, ...)`. -/
def FigState.scatter (st : FigState) (ys : List ℚ) : FigState :=
  st.addYs ys

/-- `plt.ylim(lo, hi)` as a setter (line 154). -/
def FigState.set_ylim (st : FigState) (lo hi : ℚ) : FigState :=
  { st with manualYlim := some (lo, hi) }

/-- `plt.ylim()` as a getter (line 142): the manual override if one was
set, else the autoscaled limits. -/
def FigState.ylim (st : FigState) : ℚ × ℚ :=
  match st.manualYlim with
  | some p => p
  | none => autoYlim st.dataYs

/-- The figure of `generate_westguard_graph` just before the reference
shading: seven control `axhline`s (111-117), the box plots (122), the
connecting line (136) and the QC scatter (139), in source order. -/
def preShadingState (rows : List Row) (mean sd : ℚ) : FigState :=
  ((((controlLineYs mean sd).foldl FigState.axhline {}).boxplot
      (patient_results_list rows)).plotLine (qc_values_list rows)).scatter
    (qc_values_list rows)

/-- Lines 141-144 and 154: read `plt.ylim()`, shade
`[ref_upper, y_max]` and `[y_min, ref_lower]`, then reinstate
`plt.ylim(y_min, y_max)`. -/
def addReferenceShading (st : FigState) (ref_lower ref_upper : ℚ) : FigState :=
  let y_min := st.ylim.1
  let y_max := st.ylim.2
  ((st.axhspan ref_upper y_max).axhspan y_min ref_lower).set_ylim y_min y_max

/-- The renderer-facing model `generate_westguard_graph` ends up with. -/
structure WestguardChart where
  qc_values_list : List ℚ
  patient_results_list : List (List ℚ)
  colors : List String
  positions : List Nat
  ylim : ℚ × ℚ
deriving Repr

/-- Body of `generate_westguard_graph` (lines 77-160), labels and other
purely presentational strings omitted. -/
def westguardChart (rows : List Row) (mean sd ref_lower ref_upper : ℚ)
    (warnings failures : Option (List Bool)) : WestguardChart :=
  let st := addReferenceShading (preShadingState rows mean sd) ref_lower ref_upper
  { qc_values_list := qc_values_list rows
    patient_results_list := patient_results_list rows
    colors := computeColors (patient_results_list rows).length warnings failures
    positions := List.range' 1 (patient_results_list rows).length
    ylim := st.ylim }

/-- Matplotlib's reshaping of the boxplot data argument (`_reshape_2D`):
an empty list becomes a single empty dataset; a non-empty list of groups
is kept as-is, one dataset per group. -/
def boxplotDatasets (groups : List (List ℚ)) : List (List ℚ) :=
  match groups with
  | [] => [[]]
  | g :: gs => g :: gs

/-- The length check of matplotlib's `bxp`, reached through
`plt.boxplot(data, positions=...)` at line 122: the positions list must
have exactly one entry per dataset, else the library raises ValueError. -/
def boxplotOk (groups : List (List ℚ)) (positions : List Nat) : Bool :=
  (boxplotDatasets groups).length == positions.length

/-- `generate_westguard_graph`: the Python function raises nothing itself,
but the `plt.boxplot` call at line 122 raises the library's ValueError
when the grouped data is empty (one reshaped empty dataset versus zero
positions); on every other input the function reaches `plt.show()` with
the model above. -/
def generate_westguard_graph (rows : List Row) (mean sd ref_lower ref_upper : ℚ)
    (warnings failures : Option (List Bool)) : Except VizError WestguardChart :=
  if boxplotOk (patient_results_list rows) (List.range' 1 (patient_results_list rows).length)
  then Except.ok (westguardChart rows mean sd ref_lower ref_upper warnings failures)
  else Except.error VizError.ValueError

/-- The figure of `generate_QC_graph`: seven control `axhline`s (40-46),
the connecting line (51) and the QC scatter (54). -/
def qcFigState (df : List ℚ) (mean sd : ℚ) : FigState :=
  (((controlLineYs mean sd).foldl FigState.axhline {}).plotLine df).scatter df

/-- The renderer-facing model `generate_QC_graph` ends up with. -/
structure QCChart where
  qc_values_list : List ℚ
  colors : List String
  positions : List Nat
  ylim : ℚ × ℚ
deriving Repr

/-- Body of `generate_QC_graph` (lines 5-75): `df['result']` is the value
list; colors from the optional flags; no validation of any input. -/
def qcChart (df : List ℚ) (mean sd : ℚ)
    (warnings failures : Option (List Bool)) : QCChart :=
  { qc_values_list := df
    colors := computeColors df.length warnings failures
    positions := List.range' 1 df.length
    ylim := (qcFigState df mean sd).ylim }

/-- `generate_QC_graph`: raises nothing; always reaches `plt.show()`. -/
def generate_QC_graph (df : List ℚ) (mean sd : ℚ)
    (warnings failures : Option (List Bool)) : Except VizError QCChart :=
  Except.ok (qcChart df mean sd warnings failures)

/-- Rows whose timestamps occur in the order t2, t1, t2, t3. -/
def c3rows : List Row :=
  [⟨2, 20, 51⟩, ⟨1, 10, 52⟩, ⟨2, 20, 53⟩, ⟨3, 30, 54⟩]

/-- Two rows with the same timestamp but conflicting qc_values. -/
def c4rows : List Row :=
  [⟨1, 10, 5⟩, ⟨1, 99, 6⟩]

/-- A one-row overlay input used as a concrete witness. -/
def c5rows : List Row :=
  [⟨1, 100, 98⟩]

/-! ## Helper lemmas -/

theorem getD_replicate_self {α : Type} (n i : Nat) (a : α) :
    (List.replicate n a).getD i a = a := by
  induction n generalizing i with
  | zero => cases i <;> rfl
  | succ m ih =>
      cases i with
      | zero => rfl
      | succ j =>
          rw [List.replicate_succ]
          exact ih j

theorem severities_zip_getD (fs ws : List Bool) (i : Nat)
    (h1 : i < fs.length) (h2 : i < ws.length) :
    (((fs.zip ws).map (fun p => colorOf p.1 p.2)).map severityOfColor).getD i Severity.Pass
      = severityOfColor (colorOf (fs.getD i false) (ws.getD i false)) := by
  induction fs generalizing ws i with
  | nil => simp at h1
  | cons f ft ih =>
      cases ws with
      | nil => simp at h2
      | cons w wt =>
          cases i with
          | zero => rfl
          | succ j =>
              simp only [List.length_cons, Nat.succ_lt_succ_iff] at h1 h2
              simp only [List.zip_cons_cons, List.map_cons, List.getD_cons_succ]
              exact ih wt j h1 h2

theorem foldl_axhline (ys : List ℚ) : ∀ st : FigState,
    (ys.foldl FigState.axhline st).dataYs = st.dataYs ++ ys ∧
    (ys.foldl FigState.axhline st).manualYlim = st.manualYlim := by
  induction ys with
  | nil => intro st; simp
  | cons y t ih =>
      intro st
      have h := ih (st.axhline y)
      simp only [List.foldl_cons] at h ⊢
      constructor
      · rw [h.1]
        simp [FigState.axhline, FigState.addYs]
      · rw [h.2]
        simp [FigState.axhline, FigState.addYs]

theorem foldl_min_le (xs : List ℚ) :
    ∀ a : ℚ, xs.foldl min a ≤ a ∧ ∀ x ∈ xs, xs.foldl min a ≤ x := by
  induction xs with
  | nil =>
      intro a
      exact ⟨le_refl a, by simp⟩
  | cons y t ih =>
      intro a
      have h := ih (min a y)
      simp only [List.foldl_cons]
      constructor
      · exact le_trans h.1 (min_le_left a y)
      · intro x hx
        rcases List.mem_cons.mp hx with rfl | hx
        · exact le_trans h.1 (min_le_right a x)
        · exact h.2 x hx

theorem foldl_le_max (xs : List ℚ) :
    ∀ a : ℚ, a ≤ xs.foldl max a ∧ ∀ x ∈ xs, x ≤ xs.foldl max a := by
  induction xs with
  | nil =>
      intro a
      exact ⟨le_refl a, by simp⟩
  | cons y t ih =>
      intro a
      have h := ih (max a y)
      simp only [List.foldl_cons]
      constructor
      · exact le_trans (le_max_left a y) h.1
      · intro x hx
        rcases List.mem_cons.mp hx with rfl | hx
        · exact le_trans (le_max_right a x) h.1
        · exact h.2 x hx

theorem listMin_le_of_mem {x : ℚ} {l : List ℚ} (hx : x ∈ l) : listMin l ≤ x := by
  cases l with
  | nil => cases hx
  | cons y t =>
      simp only [listMin]
      rcases List.mem_cons.mp hx with rfl | hx
      · exact (foldl_min_le t x).1
      · exact (foldl_min_le t y).2 x hx

theorem le_listMax_of_mem {x : ℚ} {l : List ℚ} (hx : x ∈ l) : x ≤ listMax l := by
  cases l with
  | nil => cases hx
  | cons y t =>
      simp only [listMax]
      rcases List.mem_cons.mp hx with rfl | hx
      · exact (foldl_le_max t x).1
      · exact (foldl_le_max t y).2 x hx

theorem autoYlim_contains {ys : List ℚ} {x : ℚ} (hx : x ∈ ys) :
    (autoYlim ys).1 ≤ x ∧ x ≤ (autoYlim ys).2 := by
  have h1 := listMin_le_of_mem hx
  have h2 := le_listMax_of_mem hx
  constructor
  · simp only [autoYlim]
    linarith
  · simp only [autoYlim]
    linarith

theorem head?_filter_eq_find? {α : Type} (p : α → Bool) (l : List α) :
    (l.filter p).head? = l.find? p := by
  induction l with
  | nil => rfl
  | cons a t ih => cases hpa : p a <;> simp [List.filter_cons, List.find?, hpa, ih]

theorem shading_preserves_ylim (st : FigState) (lo hi : ℚ) :
    (addReferenceShading st lo hi).ylim = st.ylim := by
  simp [addReferenceShading, FigState.set_ylim, FigState.axhspan, FigState.addYs,
    FigState.ylim]

theorem preShading_dataYs (rows : List Row) (mean sd : ℚ) :
    (preShadingState rows mean sd).dataYs
      = controlLineYs mean sd ++ ((patient_results_list rows).flatten
          ++ (qc_values_list rows ++ qc_values_list rows))
    ∧ (preShadingState rows mean sd).manualYlim = none := by
  have h := foldl_axhline (controlLineYs mean sd) {}
  constructor
  · simp [preShadingState, FigState.scatter, FigState.plotLine, FigState.boxplot,
      FigState.addYs, h.1, List.append_assoc]
  · simp [preShadingState, FigState.scatter, FigState.plotLine, FigState.boxplot,
      FigState.addYs, h.2]

theorem ylim_of_manual_none {st : FigState} (h : st.manualYlim = none) :
    st.ylim = autoYlim st.dataYs := by
  simp [FigState.ylim, h]

/-! ## Claim theorems -/

/-- C1: when both flag sequences are supplied (each of length equal to the
run count), the severity at every index i is Failure if failures[i] is
true (regardless of warnings[i]), else Warning if warnings[i] is true,
else Pass; when both are absent, every index is Pass. -/
theorem c1_run_severity (n i : Nat) (ws fs : List Bool)
    (hw : ws.length = n) (hf : fs.length = n) (hi : i < n) :
    (runSeverities n (some ws) (some fs)).getD i Severity.Pass
      = (if fs.getD i false then Severity.Failure
         else if ws.getD i false then Severity.Warning else Severity.Pass)
    ∧ (runSeverities n none none).getD i Severity.Pass = Severity.Pass := by
  constructor
  · have h := severities_zip_getD fs ws i (by omega) (by omega)
    simp only [runSeverities, computeColors] at h ⊢
    rw [h]
    cases fs.getD i false <;> cases ws.getD i false <;> decide
  · simp only [runSeverities, computeColors, List.map_replicate]
    have hc : severityOfColor "C0" = Severity.Pass := by decide
    rw [hc]
    exact getD_replicate_self n i Severity.Pass

/-- Witness for C1: two runs, warnings [false, true], failures
[true, false]; index 0 is a Failure. -/
theorem c1_run_severity_witness :
    (([false, true] : List Bool).length = 2 ∧ ([true, false] : List Bool).length = 2 ∧ 0 < 2)
    ∧ ((runSeverities 2 (some [false, true]) (some [true, false])).getD 0 Severity.Pass
        = (if ([true, false] : List Bool).getD 0 false then Severity.Failure
           else if ([false, true] : List Bool).getD 0 false then Severity.Warning
           else Severity.Pass)
      ∧ (runSeverities 2 none none).getD 0 Severity.Pass = Severity.Pass) :=
  ⟨⟨rfl, rfl, by decide⟩, c1_run_severity 2 0 [false, true] [true, false] rfl rfl (by decide)⟩

/-- C2: for sd > 0 the seven drawn control lines are exactly the values
mean-3sd, ..., mean+3sd, which are strictly ordered around the mean and
symmetric about it. -/
theorem c2_control_limit_tiers (mean sd : ℚ) (h : 0 < sd) :
    (∀ x, x ∈ controlLineYs mean sd ↔
        x ∈ [mean - 3*sd, mean - 2*sd, mean - sd, mean, mean + sd, mean + 2*sd, mean + 3*sd])
    ∧ (mean - 3*sd < mean - 2*sd ∧ mean - 2*sd < mean - sd ∧ mean - sd < mean
        ∧ mean < mean + sd ∧ mean + sd < mean + 2*sd ∧ mean + 2*sd < mean + 3*sd)
    ∧ ((mean + sd) - mean = mean - (mean - sd)
        ∧ (mean + 2*sd) - mean = mean - (mean - 2*sd)
        ∧ (mean + 3*sd) - mean = mean - (mean - 3*sd)) := by
  refine ⟨?_, ⟨by linarith, by linarith, by linarith, by linarith, by linarith, by linarith⟩,
    by ring, by ring, by ring⟩
  intro x
  simp only [controlLineYs, List.mem_cons, List.not_mem_nil, or_false]
  tauto

/-- Witness for C2 at mean = 100, sd = 5. -/
theorem c2_control_limit_tiers_witness :
    (0:ℚ) < 5
    ∧ ((∀ x, x ∈ controlLineYs 100 5 ↔
          x ∈ [(100:ℚ) - 3*5, 100 - 2*5, 100 - 5, 100, 100 + 5, 100 + 2*5, 100 + 3*5])
      ∧ ((100:ℚ) - 3*5 < 100 - 2*5 ∧ (100:ℚ) - 2*5 < 100 - 5 ∧ (100:ℚ) - 5 < 100
          ∧ (100:ℚ) < 100 + 5 ∧ (100:ℚ) + 5 < 100 + 2*5 ∧ (100:ℚ) + 2*5 < 100 + 3*5)
      ∧ (((100:ℚ) + 5) - 100 = 100 - (100 - 5)
          ∧ ((100:ℚ) + 2*5) - 100 = 100 - (100 - 2*5)
          ∧ ((100:ℚ) + 3*5) - 100 = 100 - (100 - 3*5))) :=
  ⟨by norm_num, c2_control_limit_tiers 100 5 (by norm_num)⟩

/-- C3 counterexample: timestamps arriving in the order [2, 1, 2, 3] come
out of the grouping in sorted order [1, 2, 3], not in first-seen order
[2, 1, 3]. -/
theorem c3_first_seen_counterexample :
    (pandasGroupby c3rows).map Prod.fst = [1, 2, 3]
    ∧ (pandasGroupby c3rows).map Prod.fst ≠ [2, 1, 3] := by
  constructor <;> decide

/-- C3 amended: groups are emitted in ascending sorted order of the
distinct qc_timestamp keys (pandas groupby default), not first-seen
order. -/
theorem c3_groups_sorted (rows : List Row) :
    List.Sorted (· ≤ ·) ((pandasGroupby rows).map Prod.fst)
    ∧ ((pandasGroupby rows).map Prod.fst).Perm (rows.map Row.qc_timestamp).dedup
    ∧ ((pandasGroupby rows).map Prod.fst).Nodup := by
  have hkeys : (pandasGroupby rows).map Prod.fst
      = ((rows.map Row.qc_timestamp).dedup).insertionSort (· ≤ ·) := by
    simp [pandasGroupby, List.map_map, Function.comp_def]
  rw [hkeys]
  refine ⟨List.sorted_insertionSort _ _, List.perm_insertionSort _ _, ?_⟩
  exact (List.perm_insertionSort _ _).nodup_iff.mpr (List.nodup_dedup _)

/-- C4: each emitted group's qc_value equals the qc_value of the first
input row carrying that group's timestamp (later conflicting values are
ignored). -/
theorem c4_first_value_wins (rows : List Row) (t : Int) (g : List Row) (r : Row)
    (hg : (t, g) ∈ pandasGroupby rows)
    (hr : rows.find? (fun x => x.qc_timestamp == t) = some r) :
    ilocQCValue g = r.qc_value := by
  rcases List.mem_map.mp hg with ⟨a, ha, heq⟩
  have h1 : a = t := congrArg Prod.fst heq
  have h2 : rows.filter (fun x => x.qc_timestamp == a) = g := congrArg Prod.snd heq
  subst h1
  have hh : (rows.filter (fun x => x.qc_timestamp == a)).head? = some r := by
    rw [head?_filter_eq_find?]
    exact hr
  rw [h2] at hh
  cases g with
  | nil => cases hh
  | cons r0 tail =>
      simp only [List.head?_cons, Option.some.injEq] at hh
      rw [show ilocQCValue (r0 :: tail) = r0.qc_value from rfl, hh]

/-- Witness for C4: two rows share timestamp 1 with qc_values 10 then 99;
the group's qc_value is the first row's 10. -/
theorem c4_first_value_wins_witness :
    ((1, [(⟨1, 10, 5⟩ : Row), ⟨1, 99, 6⟩]) ∈ pandasGroupby c4rows
      ∧ c4rows.find? (fun x => x.qc_timestamp == 1) = some ⟨1, 10, 5⟩)
    ∧ ilocQCValue [(⟨1, 10, 5⟩ : Row), ⟨1, 99, 6⟩] = (⟨1, 10, 5⟩ : Row).qc_value :=
  ⟨⟨by decide, by decide⟩,
    c4_first_value_wins c4rows 1 [⟨1, 10, 5⟩, ⟨1, 99, 6⟩] ⟨1, 10, 5⟩ (by decide) (by decide)⟩

/-- C5: in the overlay variant the final axis extent contains every
control-line value (in particular mean-3sd and mean+3sd), every group
qc_value, and every patient sample. -/
theorem c5_axis_extent_contains (rows : List Row) (mean sd rl ru : ℚ)
    (w f : Option (List Bool)) (_hne : rows ≠ []) :
    ((westguardChart rows mean sd rl ru w f).ylim.1 ≤ mean - 3*sd
      ∧ mean + 3*sd ≤ (westguardChart rows mean sd rl ru w f).ylim.2)
    ∧ ∀ x, (x ∈ controlLineYs mean sd ∨ x ∈ qc_values_list rows
        ∨ x ∈ (patient_results_list rows).flatten) →
        ((westguardChart rows mean sd rl ru w f).ylim.1 ≤ x
          ∧ x ≤ (westguardChart rows mean sd rl ru w f).ylim.2) := by
  have hylim : (westguardChart rows mean sd rl ru w f).ylim
      = autoYlim (preShadingState rows mean sd).dataYs := by
    have h1 : (westguardChart rows mean sd rl ru w f).ylim
        = (addReferenceShading (preShadingState rows mean sd) rl ru).ylim := rfl
    rw [h1, shading_preserves_ylim, ylim_of_manual_none (preShading_dataYs rows mean sd).2]
  have key : ∀ x, (x ∈ controlLineYs mean sd ∨ x ∈ qc_values_list rows
      ∨ x ∈ (patient_results_list rows).flatten) →
      ((westguardChart rows mean sd rl ru w f).ylim.1 ≤ x
        ∧ x ≤ (westguardChart rows mean sd rl ru w f).ylim.2) := by
    intro x hx
    rw [hylim]
    refine autoYlim_contains ?_
    rw [(preShading_dataYs rows mean sd).1]
    simp only [List.mem_append]
    tauto
  refine ⟨⟨(key _ (Or.inl ?_)).1, (key _ (Or.inl ?_)).2⟩, key⟩
  · simp [controlLineYs]
  · simp [controlLineYs]

/-- Witness for C5: one row, mean = 100, sd = 5, reference range 90-110. -/
theorem c5_axis_extent_contains_witness :
    c5rows ≠ []
    ∧ (((westguardChart c5rows 100 5 90 110 none none).ylim.1 ≤ (100:ℚ) - 3*5
        ∧ (100:ℚ) + 3*5 ≤ (westguardChart c5rows 100 5 90 110 none none).ylim.2)
      ∧ ∀ x, (x ∈ controlLineYs 100 5 ∨ x ∈ qc_values_list c5rows
          ∨ x ∈ (patient_results_list c5rows).flatten) →
          ((westguardChart c5rows 100 5 90 110 none none).ylim.1 ≤ x
            ∧ x ≤ (westguardChart c5rows 100 5 90 110 none none).ylim.2)) :=
  ⟨by decide, c5_axis_extent_contains c5rows 100 5 90 110 none none (by decide)⟩

/-- C6 counterexample: with only `warnings` supplied (failures absent),
`generate_QC_graph` does not fail with InvalidParameter; it colors the
run with the default Pass color. -/
theorem c6_single_flag_counterexample :
    generate_QC_graph [(100:ℚ)] 100 5 (some [true]) none
        ≠ Except.error VizError.InvalidParameter
    ∧ (qcChart [(100:ℚ)] 100 5 (some [true]) none).colors = ["C0"] :=
  ⟨fun h => Except.noConfusion h, rfl⟩

/-- C6 amended: supplying exactly one of warnings/failures is silently
treated exactly like supplying neither (all runs default-colored); no
error is raised by either entry point. -/
theorem c6_single_flag_ignored (df : List ℚ) (rows : List Row)
    (mean sd rl ru : ℚ) (bs : List Bool) :
    generate_QC_graph df mean sd (some bs) none = generate_QC_graph df mean sd none none
    ∧ generate_QC_graph df mean sd none (some bs) = generate_QC_graph df mean sd none none
    ∧ generate_westguard_graph rows mean sd rl ru (some bs) none
        = generate_westguard_graph rows mean sd rl ru none none
    ∧ generate_westguard_graph rows mean sd rl ru none (some bs)
        = generate_westguard_graph rows mean sd rl ru none none := by
  refine ⟨rfl, rfl, ?_, ?_⟩ <;>
    · unfold generate_westguard_graph
      cases boxplotOk (patient_results_list rows)
          (List.range' 1 (patient_results_list rows).length) <;> rfl

/-- C7 counterexample: two runs but flag sequences of length one;
`generate_QC_graph` does not fail with InvalidParameter, it silently
truncates the severity colors to one entry. -/
theorem c7_length_mismatch_counterexample :
    generate_QC_graph [(1:ℚ), 2] 0 1 (some [true]) (some [false])
        ≠ Except.error VizError.InvalidParameter
    ∧ (qcChart [(1:ℚ), 2] 0 1 (some [true]) (some [false])).colors = ["#FFA500"] :=
  ⟨fun h => Except.noConfusion h, rfl⟩

/-- C7 amended: no length validation exists; with both flag sequences
supplied the chart model is always produced and carries exactly
min |failures| |warnings| severity colors (zip truncation), regardless
of the run/group count. -/
theorem c7_no_length_validation (df : List ℚ) (rows : List Row)
    (mean sd rl ru : ℚ) (ws fs : List Bool) :
    generate_QC_graph df mean sd (some ws) (some fs)
        = Except.ok (qcChart df mean sd (some ws) (some fs))
    ∧ (qcChart df mean sd (some ws) (some fs)).colors.length = min fs.length ws.length
    ∧ (westguardChart rows mean sd rl ru (some ws) (some fs)).colors.length
        = min fs.length ws.length := by
  refine ⟨rfl, ?_, ?_⟩ <;> simp [qcChart, westguardChart, computeColors]

/-- C8 counterexample: sd = 0 is accepted without error and produces
seven coincident control lines at the mean. -/
theorem c8_sd_zero_counterexample :
    generate_QC_graph [(100:ℚ)] 100 0 none none ≠ Except.error VizError.InvalidParameter
    ∧ controlLineYs 100 0 = [100, 100, 100, 100, 100, 100, 100] :=
  ⟨fun h => Except.noConfusion h, by norm_num [controlLineYs]⟩

/-- C8 amended: no validation of mean or sd exists; with sd ≤ 0 the chart
is still produced, the tiers merely degenerate (mean + sd no longer lies
above the mean). -/
theorem c8_no_sd_validation (df : List ℚ) (mean sd : ℚ)
    (w f : Option (List Bool)) (h : sd ≤ 0) :
    generate_QC_graph df mean sd w f = Except.ok (qcChart df mean sd w f)
    ∧ ¬ (mean < mean + sd) :=
  ⟨rfl, by intro hc; linarith⟩

/-- Witness for C8 amended at sd = 0. -/
theorem c8_no_sd_validation_witness :
    (0:ℚ) ≤ 0
    ∧ (generate_QC_graph [(100:ℚ)] 100 0 none none
          = Except.ok (qcChart [(100:ℚ)] 100 0 none none)
      ∧ ¬ ((100:ℚ) < 100 + 0)) :=
  ⟨le_refl 0, c8_no_sd_validation [(100:ℚ)] 100 0 none none (le_refl 0)⟩

/-- C9 counterexample: on empty input the simple variant does not fail at
all — it returns an empty chart model — and the overlay variant fails
with the plotting library's ValueError (from `plt.boxplot([],
positions=[])` at line 122), not with InvalidParameter. -/
theorem c9_empty_input_counterexample :
    generate_QC_graph ([] : List ℚ) 100 5 none none
        = Except.ok (qcChart [] 100 5 none none)
    ∧ (qcChart ([] : List ℚ) 100 5 none none).qc_values_list = []
    ∧ generate_westguard_graph ([] : List Row) 100 5 90 110 none none
        = Except.error VizError.ValueError
    ∧ generate_westguard_graph ([] : List Row) 100 5 90 110 none none
        ≠ Except.error VizError.InvalidParameter := by
  refine ⟨rfl, rfl, rfl, ?_⟩
  intro h
  have h3 : (Except.error VizError.ValueError : Except VizError WestguardChart)
      = Except.error VizError.InvalidParameter := h
  injection h3 with h4
  exact VizError.noConfusion h4

/-- C9 amended: an empty input never fails with InvalidParameter: the
simple variant returns an empty chart model without any error, and the
overlay variant aborts inside `plt.boxplot` with the library's
ValueError (one reshaped empty dataset versus zero positions), never
reaching a chart model. -/
theorem c9_empty_input_behavior (mean sd rl ru : ℚ) (w f : Option (List Bool)) :
    generate_QC_graph [] mean sd w f = Except.ok (qcChart [] mean sd w f)
    ∧ (qcChart ([] : List ℚ) mean sd w f).qc_values_list = []
    ∧ generate_westguard_graph [] mean sd rl ru w f = Except.error VizError.ValueError
    ∧ generate_westguard_graph [] mean sd rl ru w f
        ≠ Except.error VizError.InvalidParameter := by
  refine ⟨rfl, rfl, rfl, ?_⟩
  intro h
  have h3 : (Except.error VizError.ValueError : Except VizError WestguardChart)
      = Except.error VizError.InvalidParameter := h
  injection h3 with h4
  exact VizError.noConfusion h4

/-- C10: the two reference-range shading bands never change the axis
extent: the chart's final y-limits equal the pre-shading figure's
y-limits (the limits captured at line 142 are reinstated at line 154). -/
theorem c10_shading_preserves_extent (rows : List Row) (mean sd rl ru : ℚ)
    (w f : Option (List Bool)) :
    (westguardChart rows mean sd rl ru w f).ylim = (preShadingState rows mean sd).ylim := by
  have h : (westguardChart rows mean sd rl ru w f).ylim
      = (addReferenceShading (preShadingState rows mean sd) rl ru).ylim := rfl
  rw [h, shading_preserves_ylim]
